import Mathlib

/-!
Shallow embedding of the fly-overhead feeder-service ingestion pipeline.

Sources embedded here:
- `src/src/utils/dataTransformer.ts` — `transformToOpenSkyFormat` (the variant
  carrying the geo-altitude fallback, lines 164‑238 of the concatenated file),
  `VALIDATION_RULES`, `validateAircraftState`, `validateAircraftStateBatch`.
- `src/src/services/DataIngestionService.ts` — `ingestData` (source priority 30,
  staleness gate, transform-and-filter stage, response assembly).
- `src/unnamed/part_008` (`PostgresRepository`) — `upsertAircraftState` (the
  `ON CONFLICT ... WHERE aircraft_states.source_priority <= $21` merge rule),
  `insertAircraftStateHistory`, `batchUpsertAircraftStates`.

Modelling conventions:
- JavaScript numbers are `ℚ` (physical quantities) or `ℤ` (unix timestamps);
  `Date.now()/1000`, already floored, is passed in as a parameter `now : ℤ`.
- A loosely-typed field is `JsVal α` distinguishing `undefined`, `null` and a
  value, because the source distinguishes `!== undefined` from `!== null`.
- Database errors are modelled by failure oracles `failUp failHist : Nat → Bool`
  indexed by the record's position in the batch: `failUp i` means the `INSERT
  ... ON CONFLICT` for record `i` throws, `failHist i` means the history insert
  throws.  The thrown message is the constant `dbErrorMessage`.
- `batchUpsertAircraftStates` slices the batch into sub-batches of
  `config.dataProcessing.batchSize` and awaits each sub-batch with
  `Promise.all`, yielding between sub-batches.  Each record's own
  upsert-then-history pair is sequential, and the shared counters are bumped in
  JS microtask order; the grouping affects scheduling only, so the embedding
  processes records in submission order.
- Logging calls (`logger.*`) are side-effect free and are not modelled.
-/

/-- A loosely-typed JavaScript value: `undefined`, `null`, or a value. -/
inductive JsVal (α : Type) where
  | undef : JsVal α
  | null : JsVal α
  | val : α → JsVal α
deriving DecidableEq, Repr

namespace JsVal

/-- `x !== undefined ? x : null`, and equally the guard pattern
`x !== null && x !== undefined`: collapse to an `Option`. -/
def toOption {α : Type} : JsVal α → Option α
  | .val a => some a
  | _ => none

/-- `x === null || x === undefined` (the field is absent). -/
def isNullOrUndef {α : Type} : JsVal α → Bool
  | .val _ => false
  | _ => true

/-- JS truthiness of a string value (`undefined`, `null` and `""` are falsy). -/
def strTruthy : JsVal String → Bool
  | .val s => s ≠ ""
  | _ => false

/-- `x || null` on a JS string (the empty string is falsy). -/
def strOrNull : JsVal String → Option String
  | .val s => if s = "" then none else some s
  | _ => none

/-- `x || null` on a JS number used as a unix timestamp (`0` is falsy). -/
def intOrNull : JsVal Int → Option Int
  | .val n => if n = 0 then none else some n
  | _ => none

/-- `x || d` on a JS number used as a unix timestamp (`0` is falsy). -/
def intOrDefault : JsVal Int → Int → Int
  | .val n, d => if n = 0 then d else n
  | _, d => d

/-- `x === true` on a loosely-typed boolean. -/
def isTrue : JsVal Bool → Bool
  | .val b => b
  | _ => false

end JsVal

/-- Input observation (`AircraftState` in `src/types`): every field except the
required `icao24` may arrive `undefined` or `null` from the feeder payload. -/
structure AircraftState where
  icao24 : JsVal String
  callsign : JsVal String
  origin_country : JsVal String
  time_position : JsVal Int
  last_contact : JsVal Int
  longitude : JsVal ℚ
  latitude : JsVal ℚ
  baro_altitude : JsVal ℚ
  geo_altitude : JsVal ℚ
  on_ground : JsVal Bool
  velocity : JsVal ℚ
  true_track : JsVal ℚ
  vertical_rate : JsVal ℚ
  sensors : JsVal (List Int)
  squawk : JsVal String
  spi : JsVal Bool
  position_source : JsVal ℚ
  category : JsVal ℚ
deriving DecidableEq, Repr

/-- The observation with every field `undefined`; concrete test states are
built by overriding fields of this one. -/
def emptyState : AircraftState :=
  { icao24 := .undef, callsign := .undef, origin_country := .undef
    time_position := .undef, last_contact := .undef
    longitude := .undef, latitude := .undef
    baro_altitude := .undef, geo_altitude := .undef
    on_ground := .undef, velocity := .undef, true_track := .undef
    vertical_rate := .undef, sensors := .undef, squawk := .undef
    spi := .undef, position_source := .undef, category := .undef }

/-- JS `String.prototype.trim()` (also SQL `TRIM`): strip leading and
trailing whitespace.  Implemented structurally on the character list so that
concrete inputs evaluate inside the kernel. -/
def jsTrim (s : String) : String :=
  ⟨((s.data.dropWhile Char.isWhitespace).reverse.dropWhile
      Char.isWhitespace).reverse⟩

/-- JS `String.prototype.toLowerCase()` on the ASCII range. -/
def jsToLower (s : String) : String := ⟨s.data.map Char.toLower⟩

/-- JS `String.prototype.toUpperCase()` on the ASCII range. -/
def jsToUpper (s : String) : String := ⟨s.data.map Char.toUpper⟩

/-- Canonical 19-slot OpenSky-extended vector produced by the normalizer.
Field/index correspondence (a compatibility contract with the consumer):
0 `icao24`, 1 `callsign`, 2 `origin_country`, 3 `time_position`,
4 `last_contact`, 5 `longitude`, 6 `latitude`, 7 `baro_altitude`,
8 `on_ground`, 9 `velocity`, 10 `true_track`, 11 `vertical_rate`,
12 `sensors`, 13 `geo_altitude`, 14 `squawk`, 15 `spi`,
16 `position_source`, 17 `category`, 18 `created_at`. -/
structure OpenSkyState where
  icao24 : String
  callsign : Option String
  origin_country : Option String
  time_position : Option Int
  last_contact : Int
  longitude : Option ℚ
  latitude : Option ℚ
  baro_altitude : Option ℚ
  on_ground : Bool
  velocity : Option ℚ
  true_track : Option ℚ
  vertical_rate : Option ℚ
  sensors : Option (List Int)
  geo_altitude : Option ℚ
  squawk : Option String
  spi : Bool
  position_source : Option ℚ
  category : Option ℚ
  created_at : Int
deriving DecidableEq, Repr

/-- The body of `transformToOpenSkyFormat` once the trimmed, lowercased
transponder address `icao24` is at hand: the final `!icao24` leg of the
required-field throw (`throw` when the lowercased-trimmed address is the
empty string), then the field normalizations and the 19-slot vector. -/
def transformBody (state : AircraftState) (icao24 : String) (now : Int) :
    Option OpenSkyState :=
  if icao24 = "" then none
  else
    let callsign :=
      match state.callsign with
      | .val s => if s = "" then none else some (jsToUpper (jsTrim s))
      | _ => none
    let origin_country := state.origin_country.strOrNull
    let time_position := state.time_position.intOrNull
    let last_contact := state.last_contact.intOrDefault now
    let longitude := state.longitude.toOption
    let latitude := state.latitude.toOption
    let geo_altitude := state.geo_altitude.toOption
    -- `state.baro_altitude !== undefined && state.baro_altitude !== null`,
    -- then the geo-altitude fallback when it came out null.
    let baro0 := state.baro_altitude.toOption
    let baro_altitude :=
      match baro0 with
      | some b => some b
      | none => match geo_altitude with
        | some g => some g
        | none => none
    let on_ground := state.on_ground.isTrue
    let velocity := state.velocity.toOption
    let true_track := state.true_track.toOption
    let vertical_rate := state.vertical_rate.toOption
    let sensors := state.sensors.toOption
    let squawk := state.squawk.strOrNull
    let spi := state.spi.isTrue
    -- `state.position_source !== undefined ? state.position_source : 0`;
    -- a runtime null survives that test and the JS range test
    -- (`null < 0` and `null > 3` are both false), so null passes through.
    let position_source : Option ℚ :=
      match state.position_source with
      | .undef => some 0
      | .null => none
      | .val x => if x < 0 ∨ x > 3 then some 0 else some x
    let category : Option ℚ :=
      match state.category with
      | .val x => if x < 0 ∨ x > 19 then none else some x
      | _ => none
    some
      { icao24 := icao24, callsign := callsign, origin_country := origin_country
        time_position := time_position, last_contact := last_contact
        longitude := longitude, latitude := latitude
        baro_altitude := baro_altitude, on_ground := on_ground
        velocity := velocity, true_track := true_track
        vertical_rate := vertical_rate, sensors := sensors
        geo_altitude := geo_altitude, squawk := squawk, spi := spi
        position_source := position_source, category := category
        created_at := now }

/-- `transformToOpenSkyFormat` (`src/src/utils/dataTransformer.ts`, the
variant at lines 164‑238 of the concatenated file, which carries the
geo-altitude fallback cited by the spec).  `now : ℤ` stands for the floored
`Date.now()/1000` used for the `last_contact` default, and also for the
`new Date()` written into slot 18.  Returns `none` where the source throws
`ICAO24 is required`: `const icao24 = state.icao24 ?
state.icao24.toLowerCase().trim() : null; if (!icao24) throw` — the throw
fires when the raw field is falsy (undefined, null, empty string) or when
the lowercased-trimmed result is empty (whitespace-only input).  The caller
catches the throw and drops the record. -/
def transformToOpenSkyFormat (state : AircraftState) (now : Int) :
    Option OpenSkyState :=
  match state.icao24 with
  | .val raw =>
    if raw = "" then none
    else transformBody state (jsTrim (jsToLower raw)) now
  | _ => none

/-- One entry of a `ValidationResult.errors` list. -/
structure ValidationError where
  index : Nat
  field : String
  message : String
deriving DecidableEq, Repr

/-- Result of `validateAircraftState` / `validateAircraftStateBatch`. -/
structure ValidationResult where
  valid : Bool
  errors : List ValidationError
deriving DecidableEq, Repr

/-- `/^[0-9a-fA-F]{6}$/` — `VALIDATION_RULES.icao24`. -/
def icao24Rule (s : String) : Bool :=
  s.length == 6 && s.data.all fun c =>
    c.isDigit || (decide ('a' ≤ c) && decide (c ≤ 'f')) ||
      (decide ('A' ≤ c) && decide (c ≤ 'F'))

/-- `/^[0-7]{4}$/` — `VALIDATION_RULES.squawk`. -/
def squawkRule (s : String) : Bool :=
  s.length == 4 && s.data.all fun c => decide ('0' ≤ c) && decide (c ≤ '7')

/-- `/^[A-Z0-9]{1,8}$/i` — `VALIDATION_RULES.callsign`. -/
def callsignRule (s : String) : Bool :=
  decide (1 ≤ s.length) && decide (s.length ≤ 8) &&
    s.data.all fun c => c.isAlphanum

/-- A numeric range from `VALIDATION_RULES`. -/
structure RuleRange where
  min : ℚ
  max : ℚ

/-- The numeric ranges of `VALIDATION_RULES`
(`src/src/utils/dataTransformer.ts` lines 301‑313); the regex rules of the
same object are the `Bool` predicates above. -/
structure ValidationRules where
  latitude : RuleRange
  longitude : RuleRange
  altitude : RuleRange
  velocity : RuleRange
  true_track : RuleRange
  vertical_rate : RuleRange
  category : RuleRange
  position_source : RuleRange

/-- `VALIDATION_RULES` (`src/src/utils/dataTransformer.ts` lines 301‑313). -/
def VALIDATION_RULES : ValidationRules where
  latitude := ⟨-90, 90⟩
  longitude := ⟨-180, 180⟩
  altitude := ⟨-1500, 60000⟩
  velocity := ⟨0, 1500⟩
  true_track := ⟨0, 360⟩
  vertical_rate := ⟨-100, 100⟩
  category := ⟨0, 19⟩
  position_source := ⟨0, 3⟩

/-- One range check of `validateAircraftState`: run only when the field is a
value (`!== null && !== undefined`); the `typeof x !== 'number'` disjunct is
vacuous in the typed embedding. -/
def rangeErrs (v : JsVal ℚ) (r : RuleRange) (index : Nat) (field msg : String) :
    List ValidationError :=
  match v with
  | .val x => if x < r.min ∨ x > r.max then [⟨index, field, msg⟩] else []
  | _ => []

/-- A timestamp check of `validateAircraftState` (`typeof x !== 'number' ||
x < 0`), run only when the field is a value. -/
def timestampErrs (v : JsVal Int) (index : Nat) (field msg : String) :
    List ValidationError :=
  match v with
  | .val x => if x < 0 then [⟨index, field, msg⟩] else []
  | _ => []

/-- A regex check of `validateAircraftState`, run only when the field is a
value (`typeof x !== 'string'` is vacuous in the typed embedding). -/
def regexErrs (v : JsVal String) (rule : String → Bool) (index : Nat)
    (field msg : String) : List ValidationError :=
  match v with
  | .val s => if rule s then [] else [⟨index, field, msg⟩]
  | _ => []

/-- The required-field check on `icao24` (`!state.icao24` is JS falsiness:
undefined, null or the empty string) followed by the hex-format check. -/
def icao24Errs (v : JsVal String) (index : Nat) : List ValidationError :=
  if v.strTruthy then
    match v with
    | .val s =>
      if icao24Rule s then []
      else [⟨index, "icao24", "ICAO24 must be 6 hexadecimal characters"⟩]
    | _ => []
  else [⟨index, "icao24", "ICAO24 is required"⟩]

/-- `validateAircraftState` (`src/src/utils/dataTransformer.ts` lines
315‑502): per-field checks pushed in source order. -/
def validateAircraftState (state : AircraftState) (index : Nat := 0) :
    ValidationResult :=
  let errors :=
    icao24Errs state.icao24 index ++
    rangeErrs state.latitude VALIDATION_RULES.latitude index "latitude"
      "Latitude must be between -90 and 90" ++
    rangeErrs state.longitude VALIDATION_RULES.longitude index "longitude"
      "Longitude must be between -180 and 180" ++
    rangeErrs state.baro_altitude VALIDATION_RULES.altitude index
      "baro_altitude"
      "Barometric altitude must be between -1500 and 60000 meters" ++
    rangeErrs state.geo_altitude VALIDATION_RULES.altitude index "geo_altitude"
      "Geometric altitude must be between -1500 and 60000 meters" ++
    rangeErrs state.velocity VALIDATION_RULES.velocity index "velocity"
      "Velocity must be between 0 and 1500 m/s" ++
    rangeErrs state.true_track VALIDATION_RULES.true_track index "true_track"
      "True track must be between 0 and 360 degrees" ++
    rangeErrs state.vertical_rate VALIDATION_RULES.vertical_rate index
      "vertical_rate" "Vertical rate must be between -100 and 100 m/s" ++
    rangeErrs state.category VALIDATION_RULES.category index "category"
      "Category must be between 0 and 19" ++
    rangeErrs state.position_source VALIDATION_RULES.position_source index
      "position_source" "Position source must be between 0 and 3" ++
    regexErrs state.squawk squawkRule index "squawk"
      "Squawk must be a 4-digit octal code (0-7)" ++
    regexErrs state.callsign callsignRule index "callsign"
      "Callsign must be alphanumeric, max 8 characters" ++
    timestampErrs state.time_position index "time_position"
      "Time position must be a positive Unix timestamp" ++
    timestampErrs state.last_contact index "last_contact"
      "Last contact must be a positive Unix timestamp"
  ⟨errors.isEmpty, errors⟩

/-- `validateAircraftStateBatch` (`src/src/utils/dataTransformer.ts` lines
504‑532).  The argument is already a Lean list, so the `Array.isArray` branch
is unreachable here; `ingestData` models the runtime non-array case through
its own `JsVal` shape check. -/
def validateAircraftStateBatch (states : List AircraftState) :
    ValidationResult :=
  if states.isEmpty then
    ⟨false, [⟨0, "states", "States array cannot be empty"⟩]⟩
  else
    let allErrors :=
      (states.enum.map fun si => (validateAircraftState si.2 si.1).errors).flatten
    ⟨allErrors.isEmpty, allErrors⟩

/-- The row content shared by the `aircraft_states` upsert and the
`aircraft_states_history` insert (`src/unnamed/part_008`): the first 18 slots
of the canonical vector (`state.slice(0, 18)` — `created_at` dropped), the
constant `data_source = 'feeder'`, the submitting feeder and the source
priority.  `TRIM($2)` / `TRIM(EXCLUDED.callsign)` is applied to the callsign
in both statements. -/
structure RecordContent where
  icao24 : String
  callsign : Option String
  origin_country : Option String
  time_position : Option Int
  last_contact : Int
  longitude : Option ℚ
  latitude : Option ℚ
  baro_altitude : Option ℚ
  on_ground : Bool
  velocity : Option ℚ
  true_track : Option ℚ
  vertical_rate : Option ℚ
  sensors : Option (List Int)
  geo_altitude : Option ℚ
  squawk : Option String
  spi : Bool
  position_source : Option ℚ
  category : Option ℚ
  data_source : String
  feeder_id : String
  source_priority : Int
deriving DecidableEq, Repr

/-- Build the row content written for `state` by feeder `fid` at priority
`prio` (SQL `TRIM` on the callsign; `data_source` is the literal 'feeder'). -/
def contentOf (s : OpenSkyState) (fid : String) (prio : Int) : RecordContent :=
  { icao24 := s.icao24, callsign := s.callsign.map jsTrim
    origin_country := s.origin_country, time_position := s.time_position
    last_contact := s.last_contact, longitude := s.longitude
    latitude := s.latitude, baro_altitude := s.baro_altitude
    on_ground := s.on_ground, velocity := s.velocity
    true_track := s.true_track, vertical_rate := s.vertical_rate
    sensors := s.sensors, geo_altitude := s.geo_altitude, squawk := s.squawk
    spi := s.spi, position_source := s.position_source, category := s.category
    data_source := "feeder", feeder_id := fid, source_priority := prio }

/-- A live row of `aircraft_states`.  On conflict the update list covers every
column of `RecordContent` plus `ingestion_timestamp = NOW()`, but not
`created_at` (absent from the `DO UPDATE SET` list), so `created_at` keeps the
value written by the original insert. -/
structure StoredAircraftState where
  content : RecordContent
  created_at : Int
  ingestion_timestamp : Int
deriving DecidableEq, Repr

/-- The two aircraft-state tables: `aircraft_states` keyed by `icao24`
(`ON CONFLICT(icao24)` — one live row per address) and the append-only
`aircraft_states_history`. -/
structure Db where
  current : List (String × StoredAircraftState)
  history : List RecordContent
deriving DecidableEq, Repr

/-- The database with both tables empty. -/
def emptyDb : Db := ⟨[], []⟩

/-- Key lookup in the `aircraft_states` association list. -/
def dbFind (cur : List (String × StoredAircraftState)) (k : String) :
    Option StoredAircraftState :=
  match cur with
  | [] => none
  | (a, v) :: rest => if a = k then some v else dbFind rest k

/-- Write-through on the `aircraft_states` association list: replace the row
with key `k`, or append a fresh row. -/
def dbSet (cur : List (String × StoredAircraftState)) (k : String)
    (v : StoredAircraftState) : List (String × StoredAircraftState) :=
  match cur with
  | [] => [(k, v)]
  | (a, w) :: rest =>
    if a = k then (k, v) :: rest else (a, w) :: dbSet rest k v

/-- `PostgresRepository.upsertAircraftState` (`src/unnamed/part_008` lines
281‑335): `INSERT INTO aircraft_states ... ON CONFLICT(icao24) DO UPDATE SET
<all content columns>, ingestion_timestamp = NOW() WHERE
aircraft_states.source_priority <= $21`.  With no existing row the insert is
unconditional; with an existing row every content column plus
`ingestion_timestamp` is overwritten exactly when the stored priority is `≤`
the incoming one (`created_at` is not in the update list and is kept). -/
def upsertAircraftState (db : Db) (state : OpenSkyState) (feederId : String)
    (sourcePrio : Int) (now : Int) : Db :=
  match dbFind db.current state.icao24 with
  | none =>
    let fresh : StoredAircraftState :=
      ⟨contentOf state feederId sourcePrio, state.created_at, now⟩
    { db with current := dbSet db.current state.icao24 fresh }
  | some s =>
    if s.content.source_priority ≤ sourcePrio then
      let updated : StoredAircraftState :=
        ⟨contentOf state feederId sourcePrio, s.created_at, now⟩
      { db with current := dbSet db.current state.icao24 updated }
    else db

/-- `PostgresRepository.insertAircraftStateHistory` (`src/unnamed/part_008`
lines 340‑374): unconditional append of the 18-column slice plus
`data_source`, `feeder_id`, `source_priority` (the table's own `created_at`
default is not modelled). -/
def insertAircraftStateHistory (db : Db) (state : OpenSkyState)
    (feederId : String) (sourcePrio : Int) : Db :=
  { db with history := db.history ++ [contentOf state feederId sourcePrio] }

/-- Message carried by a modelled database error (`err.message` in the
source is whatever the driver threw; the claims never inspect it). -/
def dbErrorMessage : String := "database error"

/-- One element of `BatchUpsertResult.errorDetails` and of the response's
`errors` list. -/
structure ErrDetail where
  icao24 : Option String
  error : String
deriving DecidableEq, Repr

/-- `BatchUpsertResult` (`src/unnamed/part_008` lines 26‑30). -/
structure BatchUpsertResult where
  success : Nat
  errors : Nat
  errorDetails : List ErrDetail
deriving DecidableEq, Repr

/-- Per-record body of `batchUpsertAircraftStates`: try the upsert, then the
history insert; on either throw, count and record the error with the record's
`icao24` and leave the rest of the batch unaffected.  When the upsert
succeeded but the history insert throws, the upsert's effect persists (the
two statements do not share a transaction).  `i` is the record's position in
the submitted batch, consumed by the failure oracles. -/
def batchUpsertGo (db : Db) (l : List (OpenSkyState × String))
    (sourcePrio : Int) (failUp failHist : Nat → Bool) (now : Int) (i : Nat) :
    BatchUpsertResult × Db :=
  match l with
  | [] => (⟨0, 0, []⟩, db)
  | (st, fid) :: rest =>
    if failUp i then
      let r := batchUpsertGo db rest sourcePrio failUp failHist now (i + 1)
      (⟨r.1.success, r.1.errors + 1,
        ⟨some st.icao24, dbErrorMessage⟩ :: r.1.errorDetails⟩, r.2)
    else
      let db1 := upsertAircraftState db st fid sourcePrio now
      if failHist i then
        let r := batchUpsertGo db1 rest sourcePrio failUp failHist now (i + 1)
        (⟨r.1.success, r.1.errors + 1,
          ⟨some st.icao24, dbErrorMessage⟩ :: r.1.errorDetails⟩, r.2)
      else
        let db2 := insertAircraftStateHistory db1 st fid sourcePrio
        let r := batchUpsertGo db2 rest sourcePrio failUp failHist now (i + 1)
        (⟨r.1.success + 1, r.1.errors, r.1.errorDetails⟩, r.2)

/-- `PostgresRepository.batchUpsertAircraftStates` (`src/unnamed/part_008`
lines 379‑421).  The source slices the batch into sub-batches of
`config.dataProcessing.batchSize` awaited with `Promise.all` and a yield
between sub-batches; each record's upsert-then-history pair is sequential and
the shared counters are bumped atomically on the JS event loop, so the
grouping affects scheduling only and the embedding processes records in
submission order. -/
def batchUpsertAircraftStates (db : Db) (states : List (OpenSkyState × String))
    (sourcePrio : Int) (failUp failHist : Nat → Bool) (now : Int) :
    BatchUpsertResult × Db :=
  batchUpsertGo db states sourcePrio failUp failHist now 0

/-- `config.dataProcessing` (`src/unnamed/part_005` lines 35‑37): env-driven
with defaults `BATCH_SIZE=50`, `MAX_DATA_AGE_SECONDS=300`. -/
structure Config where
  batchSize : Nat
  maxDataAgeSeconds : Int

/-- The configuration with both env variables unset. -/
def defaultConfig : Config := ⟨50, 300⟩

/-- `DataSubmissionPayload`: `{ timestamp?, states }` as received from the
feeder; `states` is a `JsVal` because the runtime value may be missing or not
an array. -/
structure DataSubmissionPayload where
  timestamp : JsVal Int
  states : JsVal (List AircraftState)

/-- `DataSubmissionResponse` (`processing_time_ms`, a wall-clock reading, is
not modelled). -/
structure DataSubmissionResponse where
  success : Bool
  processed : Nat
  errors : List ErrDetail
  feeder_id : String
deriving DecidableEq, Repr

/-- Outcome of `ingestData`: a thrown `AppError` (status code, message,
`details`) or a returned response. -/
inductive IngestOutcome where
  | httpError (statusCode : Nat) (message : String)
      (details : List ValidationError)
  | response (r : DataSubmissionResponse)
deriving DecidableEq, Repr

/-- `this.sourcePriority` set in the `DataIngestionService` constructor. -/
def feederSourcePriority : Int := 30

/-- `DataIngestionService.ingestData`
(`src/src/services/DataIngestionService.ts` lines 23‑153), stage by stage:
shape check (`!data.states || !Array.isArray(data.states)` throws 400), empty
batch returns a trivially successful response, batch validation throws 400
with the collected details, staleness (`now - (data.timestamp || now) >
maxDataAgeSeconds`) throws 400, per-record transformation drops throwing
records, all-dropped returns a failed response, and otherwise the repository
result is folded into the response with `success = (result.errors === 0)`.
The staleness detail's interpolated message is modelled by a constant
string. -/
def ingestData (cfg : Config) (feederId : String)
    (data : DataSubmissionPayload) (now : Int) (db : Db)
    (failUp failHist : Nat → Bool) : IngestOutcome × Db :=
  match data.states with
  | .undef => (.httpError 400 "Invalid data format: states must be an array" [], db)
  | .null => (.httpError 400 "Invalid data format: states must be an array" [], db)
  | .val states =>
    if states.isEmpty then
      (.response ⟨true, 0, [], feederId⟩, db)
    else
      let vr := validateAircraftStateBatch states
      if vr.valid then
        let requestTimestamp := data.timestamp.intOrDefault now
        let dataAge := now - requestTimestamp
        if dataAge > cfg.maxDataAgeSeconds then
          (.httpError 400 "Data is too old"
            [⟨0, "timestamp", "Data age exceeds maximum allowed"⟩], db)
        else
          let transformedStates := states.filterMap fun st =>
            (transformToOpenSkyFormat st now).map fun o => (o, feederId)
          if transformedStates.isEmpty then
            (.response ⟨false, 0,
              [⟨none, "All aircraft states failed transformation"⟩],
              feederId⟩, db)
          else
            let r := batchUpsertAircraftStates db transformedStates
              feederSourcePriority failUp failHist now
            (.response ⟨r.1.errors == 0, r.1.success, r.1.errorDetails,
              feederId⟩, r.2)
      else (.httpError 400 "Invalid aircraft state data" vr.errors, db)

/-- Is this outcome the staleness rejection of `ingestData`? -/
def IngestOutcome.isStaleReject : IngestOutcome → Bool
  | .httpError _ m _ => m == "Data is too old"
  | _ => false

/-- Expected error details of a batch under the failure oracles: one entry,
carrying the record's transponder address, per record whose upsert or history
insert throws.  `i` is the index of the first record. -/
def failedDetails (failUp failHist : Nat → Bool) :
    List (OpenSkyState × String) → Nat → List ErrDetail
  | [], _ => []
  | (st, _) :: rest, i =>
    (if failUp i || failHist i then [⟨some st.icao24, dbErrorMessage⟩] else [])
      ++ failedDetails failUp failHist rest (i + 1)

/-- A sequence of merges against an initially empty store: each element is
(normalized record, feeder id, source priority). -/
def mergeSeq (l : List (OpenSkyState × String × Int)) (now : Int) : Db :=
  l.foldl (fun db x => upsertAircraftState db x.1 x.2.1 x.2.2 now) emptyDb

/-- A minimal valid observation: `icao24` six hex characters, every other
field undefined. -/
def minState : AircraftState := { emptyState with icao24 := .val "abc123" }

/-- A second minimal valid observation with a different address. -/
def minState2 : AircraftState := { emptyState with icao24 := .val "def456" }

/-- `minState` with an out-of-range latitude (fails field validation). -/
def badLatState : AircraftState := { minState with latitude := .val 91 }

/-- A concrete normalized record (the image of `minState` at `now = 100`). -/
def minOpen : OpenSkyState :=
  { icao24 := "abc123", callsign := none, origin_country := none
    time_position := none, last_contact := 100, longitude := none
    latitude := none, baro_altitude := none, on_ground := false
    velocity := none, true_track := none, vertical_rate := none
    sensors := none, geo_altitude := none, squawk := none, spi := false
    position_source := some 0, category := none, created_at := 100 }

/-- A different record for the same transponder address as `minOpen`. -/
def minOpenB : OpenSkyState := { minOpen with callsign := some "UAL123" }

/-- `minState` with out-of-range category (25) and position source (5). -/
def clampTestState : AircraftState :=
  { minState with category := .val 25, position_source := .val 5 }

/-- `minState` with a null barometric altitude and geometric altitude
3048 m. -/
def altTestState : AircraftState :=
  { minState with baro_altitude := .null, geo_altitude := .val 3048 }

/-! ## Store lemmas -/

theorem dbFind_dbSet_self (cur : List (String × StoredAircraftState))
    (k : String) (v : StoredAircraftState) :
    dbFind (dbSet cur k v) k = some v := by
  induction cur with
  | nil => simp [dbSet, dbFind]
  | cons hd tl ih =>
    obtain ⟨a, w⟩ := hd
    by_cases h : a = k
    · simp [dbSet, h, dbFind]
    · simp [dbSet, h, dbFind, ih]

theorem dbFind_dbSet_ne (cur : List (String × StoredAircraftState))
    (k k' : String) (v : StoredAircraftState) (h : k' ≠ k) :
    dbFind (dbSet cur k v) k' = dbFind cur k' := by
  induction cur with
  | nil => simp [dbSet, dbFind, Ne.symm h]
  | cons hd tl ih =>
    obtain ⟨a, w⟩ := hd
    by_cases ha : a = k
    · subst ha
      simp [dbSet, dbFind, Ne.symm h]
    · simp [dbSet, ha, dbFind, ih]

theorem upsert_find_insert (db : Db) (st : OpenSkyState) (fid : String)
    (p now : Int) (h : dbFind db.current st.icao24 = none) :
    dbFind (upsertAircraftState db st fid p now).current st.icao24 =
      some ⟨contentOf st fid p, st.created_at, now⟩ := by
  simp [upsertAircraftState, h, dbFind_dbSet_self]

theorem upsert_find_update (db : Db) (st : OpenSkyState) (fid : String)
    (p now : Int) (s : StoredAircraftState)
    (h : dbFind db.current st.icao24 = some s) :
    dbFind (upsertAircraftState db st fid p now).current st.icao24 =
      some (if s.content.source_priority ≤ p
        then ⟨contentOf st fid p, s.created_at, now⟩ else s) := by
  simp only [upsertAircraftState, h]
  split
  · simp [dbFind_dbSet_self]
  · simp [h]

theorem upsert_find_other (db : Db) (st : OpenSkyState) (fid : String)
    (p now : Int) (addr : String) (h : addr ≠ st.icao24) :
    dbFind (upsertAircraftState db st fid p now).current addr =
      dbFind db.current addr := by
  cases hf : dbFind db.current st.icao24 with
  | none => simp [upsertAircraftState, hf, dbFind_dbSet_ne _ _ _ _ h]
  | some s =>
    simp only [upsertAircraftState, hf]
    split
    · simp [dbFind_dbSet_ne _ _ _ _ h]
    · rfl

/-- Outcome of a merge sequence against an initially empty store, for one
address: the surviving row carries the maximum submitted priority, and its
content is the last record submitted at that maximum (every later record has
a strictly lower priority). -/
theorem mergeSeq_spec (now : Int) (addr : String) :
    ∀ (l : List (OpenSkyState × String × Int)), l ≠ [] →
    (∀ x ∈ l, x.1.icao24 = addr) →
    ∃ s, dbFind (mergeSeq l now).current addr = some s ∧
      s.content.source_priority ∈ l.map (fun x => x.2.2) ∧
      (∀ q ∈ l.map (fun x => x.2.2), q ≤ s.content.source_priority) ∧
      ∃ l1 x l2, l = l1 ++ x :: l2 ∧
        s.content = contentOf x.1 x.2.1 x.2.2 ∧
        x.2.2 = s.content.source_priority ∧
        (∀ y ∈ l2, y.2.2 < s.content.source_priority) := by
  intro l
  induction l using List.reverseRecOn with
  | nil => intro h; exact absurd rfl h
  | append_singleton l x ih =>
    intro _ hall
    have hx : x.1.icao24 = addr := hall x (by simp)
    have hstep : mergeSeq (l ++ [x]) now =
        upsertAircraftState (mergeSeq l now) x.1 x.2.1 x.2.2 now := by
      simp [mergeSeq, List.foldl_append]
    by_cases hl : l = []
    · subst hl
      refine ⟨⟨contentOf x.1 x.2.1 x.2.2, x.1.created_at, now⟩, ?_,
        by simp [contentOf], by simp [contentOf], [], x, [], by simp, rfl,
        by simp [contentOf], by simp⟩
      rw [hstep, ← hx]
      exact upsert_find_insert _ _ _ _ _ rfl
    · obtain ⟨s, hfind, hmem, hub, l1, x0, l2, hdec, hcont, hp, hlast⟩ :=
        ih hl (fun y hy => hall y (List.mem_append_left _ hy))
      have hfind' : dbFind (mergeSeq l now).current x.1.icao24 = some s := by
        rw [hx]; exact hfind
      have hup := upsert_find_update (mergeSeq l now) x.1 x.2.1 x.2.2 now s hfind'
      by_cases hle : s.content.source_priority ≤ x.2.2
      · refine ⟨⟨contentOf x.1 x.2.1 x.2.2, s.created_at, now⟩, ?_, by simp [contentOf],
          ?_, l, x, [], by simp, rfl, by simp [contentOf], by simp⟩
        · rw [hstep, ← hx, hup, if_pos hle]
        · intro q hq
          simp only [List.map_append, List.mem_append, List.map_cons,
            List.mem_singleton, List.map_nil, List.mem_cons] at hq
          rcases hq with hq | hq
          · calc q ≤ s.content.source_priority := hub q hq
              _ ≤ x.2.2 := hle
              _ = (contentOf x.1 x.2.1 x.2.2).source_priority := by
                simp [contentOf]
          · rcases hq with hq | hq
            · subst hq; simp [contentOf]
            · exact absurd hq (by simp)
      · refine ⟨s, ?_, by rw [List.map_append]; exact List.mem_append_left _ hmem,
          ?_, l1, x0, l2 ++ [x], by rw [hdec]; simp, hcont, hp, ?_⟩
        · rw [hstep, ← hx, hup, if_neg hle]
        · intro q hq
          simp only [List.map_append, List.mem_append] at hq
          rcases hq with hq | hq
          · exact hub q hq
          · simp only [List.map_cons, List.map_nil, List.mem_singleton] at hq
            subst hq
            exact le_of_lt (lt_of_not_le hle)
        · intro y hy
          rcases List.mem_append.1 hy with hy | hy
          · exact hlast y hy
          · simp only [List.mem_singleton] at hy
            subst hy
            exact lt_of_not_le hle

/-- C1: Priority monotonicity of the merge rule.  For any transponder
address: (1) with no existing row the incoming record is inserted
unconditionally; (2) an existing row is overwritten — every content field,
priority and feeder id included — exactly when the incoming priority is `≥`
the stored one (`WHERE aircraft_states.source_priority <= $21`); (3) a merge
never decreases any stored priority; (4) after any nonempty sequence of
merges for one address the stored priority is the maximum of the submitted
priorities and the stored content is the last record submitted at that
maximum. -/
theorem upsertAircraftState_priority_monotonicity :
    (∀ (db : Db) (st : OpenSkyState) (fid : String) (p now : Int),
      dbFind db.current st.icao24 = none →
      dbFind (upsertAircraftState db st fid p now).current st.icao24 =
        some ⟨contentOf st fid p, st.created_at, now⟩)
  ∧ (∀ (db : Db) (st : OpenSkyState) (fid : String) (p now : Int)
      (s : StoredAircraftState),
      dbFind db.current st.icao24 = some s →
      dbFind (upsertAircraftState db st fid p now).current st.icao24 =
        some (if s.content.source_priority ≤ p
          then ⟨contentOf st fid p, s.created_at, now⟩ else s))
  ∧ (∀ (db : Db) (st : OpenSkyState) (fid : String) (p now : Int)
      (addr : String) (s : StoredAircraftState),
      dbFind db.current addr = some s →
      ∃ s', dbFind (upsertAircraftState db st fid p now).current addr =
          some s' ∧
        s.content.source_priority ≤ s'.content.source_priority)
  ∧ (∀ (now : Int) (addr : String)
      (l : List (OpenSkyState × String × Int)), l ≠ [] →
      (∀ x ∈ l, x.1.icao24 = addr) →
      ∃ s, dbFind (mergeSeq l now).current addr = some s ∧
        s.content.source_priority ∈ l.map (fun x => x.2.2) ∧
        (∀ q ∈ l.map (fun x => x.2.2), q ≤ s.content.source_priority) ∧
        ∃ l1 x l2, l = l1 ++ x :: l2 ∧
          s.content = contentOf x.1 x.2.1 x.2.2 ∧
          x.2.2 = s.content.source_priority ∧
          (∀ y ∈ l2, y.2.2 < s.content.source_priority)) := by
  refine ⟨upsert_find_insert, upsert_find_update, ?_, mergeSeq_spec⟩
  intro db st fid p now addr s h
  by_cases hx : addr = st.icao24
  · subst hx
    rw [upsert_find_update db st fid p now s h]
    refine ⟨_, rfl, ?_⟩
    split_ifs with h'
    · simpa [contentOf] using h'
    · exact le_refl _
  · refine ⟨s, ?_, le_refl _⟩
    rw [upsert_find_other db st fid p now addr hx]
    exact h

/-- Witness for C1: each conjunct instantiated at concrete inputs — an insert
into the empty store, a lower-priority overwrite attempt against the stored
priority-30 row, and the two-merge sequence 30 then 20 on one address. -/
theorem upsertAircraftState_priority_monotonicity_witness :
    (dbFind (upsertAircraftState emptyDb minOpen "f" 30 100).current
        minOpen.icao24 =
      some ⟨contentOf minOpen "f" 30, minOpen.created_at, 100⟩)
  ∧ (dbFind (upsertAircraftState (upsertAircraftState emptyDb minOpen "f" 30 100)
        minOpenB "g" 20 200).current minOpenB.icao24 =
      some (if (contentOf minOpen "f" 30 : RecordContent).source_priority ≤ 20
        then ⟨contentOf minOpenB "g" 20,
          (⟨contentOf minOpen "f" 30, 100, 100⟩ :
            StoredAircraftState).created_at, 200⟩
        else ⟨contentOf minOpen "f" 30, 100, 100⟩))
  ∧ (∃ s', dbFind (upsertAircraftState
        (upsertAircraftState emptyDb minOpen "f" 30 100)
        minOpenB "g" 20 200).current "abc123" = some s' ∧
      (⟨contentOf minOpen "f" 30, 100, 100⟩ :
        StoredAircraftState).content.source_priority ≤
        s'.content.source_priority)
  ∧ (∃ s, dbFind (mergeSeq [(minOpen, "f", 30), (minOpenB, "g", 20)] 100).current
        "abc123" = some s ∧
      s.content.source_priority ∈
        ([(minOpen, "f", 30), (minOpenB, "g", 20)] :
          List (OpenSkyState × String × Int)).map (fun x => x.2.2) ∧
      (∀ q ∈ ([(minOpen, "f", 30), (minOpenB, "g", 20)] :
          List (OpenSkyState × String × Int)).map (fun x => x.2.2),
        q ≤ s.content.source_priority) ∧
      ∃ l1 x l2, ([(minOpen, "f", 30), (minOpenB, "g", 20)] :
          List (OpenSkyState × String × Int)) = l1 ++ x :: l2 ∧
        s.content = contentOf x.1 x.2.1 x.2.2 ∧
        x.2.2 = s.content.source_priority ∧
        (∀ y ∈ l2, y.2.2 < s.content.source_priority)) :=
  ⟨upsertAircraftState_priority_monotonicity.1 emptyDb minOpen "f" 30 100
      (by decide),
   upsertAircraftState_priority_monotonicity.2.1
      (upsertAircraftState emptyDb minOpen "f" 30 100) minOpenB "g" 20 200
      ⟨contentOf minOpen "f" 30, 100, 100⟩ (by decide),
   upsertAircraftState_priority_monotonicity.2.2.1
      (upsertAircraftState emptyDb minOpen "f" 30 100) minOpenB "g" 20 200
      "abc123" ⟨contentOf minOpen "f" 30, 100, 100⟩ (by decide),
   upsertAircraftState_priority_monotonicity.2.2.2 100 "abc123"
      [(minOpen, "f", 30), (minOpenB, "g", 20)] (by decide) (by decide)⟩

/-- C2 counterexample: a two-element batch whose second element fails field
validation is rejected wholesale with HTTP 400 — the valid first element is
not processed (`processed = N-k` would be a response with `processed = 1`)
and the database, history included, is untouched. -/
theorem ingest_partial_validation_counterexample :
    ingestData defaultConfig "f" ⟨.val 999, .val [minState, badLatState]⟩ 1000
        emptyDb (fun _ => false) (fun _ => false) =
      (.httpError 400 "Invalid aircraft state data"
        [⟨1, "latitude", "Latitude must be between -90 and 90"⟩], emptyDb) := by
  decide

/-- C2 as amended: any nonempty batch containing at least one observation
that fails field validation is rejected wholesale — `ingestData` throws
HTTP 400 `Invalid aircraft state data` carrying the complete per-index error
list, no record (valid ones included) is processed, and the database is
unchanged. -/
theorem ingest_rejects_invalid_batch :
    ∀ (cfg : Config) (fid : String) (ts : JsVal Int)
      (states : List AircraftState) (now : Int) (db : Db)
      (fU fH : Nat → Bool), states ≠ [] →
      (validateAircraftStateBatch states).valid = false →
      ingestData cfg fid ⟨ts, .val states⟩ now db fU fH =
        (.httpError 400 "Invalid aircraft state data"
          (validateAircraftStateBatch states).errors, db) := by
  intro cfg fid ts states now db fU fH hne hv
  cases states with
  | nil => exact absurd rfl hne
  | cons a l => simp [ingestData, hv]

/-- Witness for C2's amended theorem at the concrete two-element batch. -/
theorem ingest_rejects_invalid_batch_witness :
    ([minState, badLatState] ≠ ([] : List AircraftState)) ∧
    (validateAircraftStateBatch [minState, badLatState]).valid = false ∧
    ingestData defaultConfig "f" ⟨.val 999, .val [minState, badLatState]⟩ 1000
        emptyDb (fun _ => false) (fun _ => false) =
      (.httpError 400 "Invalid aircraft state data"
        (validateAircraftStateBatch [minState, badLatState]).errors, emptyDb) :=
  ⟨by decide, by decide,
    ingest_rejects_invalid_batch defaultConfig "f" (.val 999)
      [minState, badLatState] 1000 emptyDb (fun _ => false) (fun _ => false)
      (by decide) (by decide)⟩

/-- C5 counterexample: an empty `states` list is answered with a trivially
successful response (`success = true`, `processed = 0`, no errors), not with
a shape error. -/
theorem empty_batch_counterexample :
    ingestData defaultConfig "f" ⟨.undef, .val []⟩ 1000 emptyDb
        (fun _ => false) (fun _ => false) =
      (.response ⟨true, 0, [], "f"⟩, emptyDb) := by
  decide

/-- C5 as amended: a missing or non-array `states` field rejects the whole
request with the single shape error and no per-record processing, but an
empty list is not an error — it short-circuits into a trivially successful
response (`processed = 0`, empty error list) before validation, again with
no per-record processing and no database change. -/
theorem batch_shape_handling :
    (∀ (cfg : Config) (fid : String) (ts : JsVal Int) (now : Int) (db : Db)
       (fU fH : Nat → Bool),
      ingestData cfg fid ⟨ts, .undef⟩ now db fU fH =
        (.httpError 400 "Invalid data format: states must be an array" [], db))
  ∧ (∀ (cfg : Config) (fid : String) (ts : JsVal Int) (now : Int) (db : Db)
       (fU fH : Nat → Bool),
      ingestData cfg fid ⟨ts, .null⟩ now db fU fH =
        (.httpError 400 "Invalid data format: states must be an array" [], db))
  ∧ (∀ (cfg : Config) (fid : String) (ts : JsVal Int) (now : Int) (db : Db)
       (fU fH : Nat → Bool),
      ingestData cfg fid ⟨ts, .val []⟩ now db fU fH =
        (.response ⟨true, 0, [], fid⟩, db)) :=
  ⟨fun _ _ _ _ _ _ _ => rfl, fun _ _ _ _ _ _ _ => rfl,
   fun _ _ _ _ _ _ _ => rfl⟩

/-- The upsert never touches the history table. -/
theorem upsert_history_eq (db : Db) (st : OpenSkyState) (fid : String)
    (p now : Int) :
    (upsertAircraftState db st fid p now).history = db.history := by
  cases hf : dbFind db.current st.icao24 with
  | none => simp [upsertAircraftState, hf]
  | some s =>
    simp only [upsertAircraftState, hf]
    split <;> rfl

/-- With no database failures, one batch pass appends exactly the submitted
records, in order, to the history table. -/
theorem batchUpsertGo_history_no_fail :
    ∀ (states : List (OpenSkyState × String)) (db : Db) (prio now : Int)
      (i : Nat),
      (batchUpsertGo db states prio (fun _ => false) (fun _ => false)
          now i).2.history =
        db.history ++ states.map (fun x => contentOf x.1 x.2 prio) := by
  intro states
  induction states with
  | nil => intro db prio now i; simp [batchUpsertGo]
  | cons hd rest ih =>
    intro db prio now i
    obtain ⟨st, fid⟩ := hd
    simp [batchUpsertGo, insertAircraftStateHistory, upsert_history_eq, ih]

/-- C3 counterexample: when the merge write (upsert) for a record throws, the
history append for that record is skipped — the two operations are sequenced,
not independent.  One record with a failing upsert yields one counted error
and an unchanged database: no history row is created. -/
theorem history_skipped_on_upsert_failure :
    batchUpsertAircraftStates emptyDb [(minOpen, "f")] 30 (fun _ => true)
        (fun _ => false) 100 =
      (⟨0, 1, [⟨some "abc123", dbErrorMessage⟩]⟩, emptyDb) ∧
    (batchUpsertAircraftStates emptyDb [(minOpen, "f")] 30 (fun _ => true)
        (fun _ => false) 100).2.history = [] := by
  constructor <;> decide

/-- C3 as amended: (1) when both writes succeed, every record of the batch
appends exactly one history row — independently of the merge outcome, a
priority-discarded observation included; (2) a record whose merge write
throws contributes no history row (the append is sequenced after the upsert
and is skipped), the failure being counted and reported with the record's
address while the store is left unchanged; (3) a record whose history append
throws keeps the already-applied merge, and the failure is likewise counted
and reported. -/
theorem history_append_per_record :
    (∀ (db : Db) (states : List (OpenSkyState × String)) (prio now : Int),
      (batchUpsertAircraftStates db states prio (fun _ => false)
          (fun _ => false) now).2.history =
        db.history ++ states.map (fun x => contentOf x.1 x.2 prio))
  ∧ (∀ (db : Db) (st : OpenSkyState) (fid : String) (prio now : Int),
      batchUpsertAircraftStates db [(st, fid)] prio (fun _ => true)
          (fun _ => false) now =
        (⟨0, 1, [⟨some st.icao24, dbErrorMessage⟩]⟩, db))
  ∧ (∀ (db : Db) (st : OpenSkyState) (fid : String) (prio now : Int),
      batchUpsertAircraftStates db [(st, fid)] prio (fun _ => false)
          (fun _ => true) now =
        (⟨0, 1, [⟨some st.icao24, dbErrorMessage⟩]⟩,
          upsertAircraftState db st fid prio now)) :=
  ⟨fun db states prio now =>
      batchUpsertGo_history_no_fail states db prio now 0,
   fun _ _ _ _ _ => rfl, fun _ _ _ _ _ => rfl⟩

/-- Error accounting of one batch pass: the error details are exactly one
entry, tagged with the record's address, per record whose upsert or history
insert throws; the error counter is their number; and every submitted record
is counted either as a success or as an error (a failure never aborts the
remainder). -/
theorem batchUpsertGo_counts :
    ∀ (states : List (OpenSkyState × String)) (db : Db) (prio now : Int)
      (fU fH : Nat → Bool) (i : Nat),
      ((batchUpsertGo db states prio fU fH now i).1.errorDetails =
        failedDetails fU fH states i) ∧
      ((batchUpsertGo db states prio fU fH now i).1.errors =
        (failedDetails fU fH states i).length) ∧
      ((batchUpsertGo db states prio fU fH now i).1.success +
        (batchUpsertGo db states prio fU fH now i).1.errors =
          states.length) := by
  intro states
  induction states with
  | nil => intro db prio now fU fH i; simp [batchUpsertGo, failedDetails]
  | cons hd rest ih =>
    intro db prio now fU fH i
    obtain ⟨st, fid⟩ := hd
    by_cases h1 : fU i
    · obtain ⟨e1, e2, e3⟩ := ih db prio now fU fH (i + 1)
      refine ⟨?_, ?_, ?_⟩ <;>
        simp [batchUpsertGo, failedDetails, h1, e1, e2] <;> omega
    · by_cases h2 : fH i
      · obtain ⟨e1, e2, e3⟩ :=
          ih (upsertAircraftState db st fid prio now) prio now fU fH (i + 1)
        refine ⟨?_, ?_, ?_⟩ <;>
          simp [batchUpsertGo, failedDetails, h1, h2, e1, e2] <;> omega
      · obtain ⟨e1, e2, e3⟩ :=
          ih (insertAircraftStateHistory
            (upsertAircraftState db st fid prio now) st fid prio)
            prio now fU fH (i + 1)
        refine ⟨?_, ?_, ?_⟩ <;>
          simp [batchUpsertGo, failedDetails, h1, h2, e1, e2] <;> omega

/-- C4 counterexample: a two-record batch whose first record's storage write
throws: the second record is still processed (`processed = 1`), the failure
is reported with its address — yet the response says `success = false`
although one record was accepted, refuting "success whenever ≥ 1 record is
accepted". -/
theorem batch_success_flag_counterexample :
    (ingestData defaultConfig "f" ⟨.val 999, .val [minState, minState2]⟩ 1000
        emptyDb (fun i => i == 0) (fun _ => false)).1 =
      .response ⟨false, 1, [⟨some "abc123", dbErrorMessage⟩], "f"⟩ := by
  decide

/-- C4 as amended: a per-record storage failure never aborts the remaining
records — every record is counted as a success or as an error, each error is
reported with the offending transponder address — but the response reports
overall success exactly when *no* record failed (`success = (errors === 0)`),
not when at least one was accepted. -/
theorem per_record_failure_isolation :
    (∀ (db : Db) (l : List (OpenSkyState × String)) (prio now : Int)
       (fU fH : Nat → Bool),
      ((batchUpsertAircraftStates db l prio fU fH now).1.errorDetails =
        failedDetails fU fH l 0) ∧
      ((batchUpsertAircraftStates db l prio fU fH now).1.errors =
        (failedDetails fU fH l 0).length) ∧
      ((batchUpsertAircraftStates db l prio fU fH now).1.success +
        (batchUpsertAircraftStates db l prio fU fH now).1.errors = l.length))
  ∧ (∀ (cfg : Config) (fid : String) (data : DataSubmissionPayload)
       (now : Int) (db : Db) (fU fH : Nat → Bool)
       (r : DataSubmissionResponse),
      (ingestData cfg fid data now db fU fH).1 = .response r →
      (r.success = true ↔ r.errors = [])) := by
  constructor
  · intro db l prio now fU fH
    exact batchUpsertGo_counts l db prio now fU fH 0
  · intro cfg fid data now db fU fH r h
    obtain ⟨ts, sts⟩ := data
    cases sts with
    | undef => simp [ingestData] at h
    | null => simp [ingestData] at h
    | val states =>
      by_cases he : states.isEmpty = true
      · have heq : (ingestData cfg fid ⟨ts, .val states⟩ now db fU fH).1 =
            .response ⟨true, 0, [], fid⟩ := by
          simp [ingestData, he]
        rw [heq] at h
        injection h with h'
        rw [← h']
        simp
      · by_cases hv : (validateAircraftStateBatch states).valid = true
        · by_cases hst : now - ts.intOrDefault now > cfg.maxDataAgeSeconds
          · have heq : (ingestData cfg fid ⟨ts, .val states⟩ now db fU fH).1 =
                .httpError 400 "Data is too old"
                  [⟨0, "timestamp", "Data age exceeds maximum allowed"⟩] := by
              simp [ingestData, he, hv, hst]
            rw [heq] at h
            simp at h
          · by_cases hT : (states.filterMap fun st =>
                (transformToOpenSkyFormat st now).map
                  fun o => (o, fid)).isEmpty = true
            · have heq : (ingestData cfg fid ⟨ts, .val states⟩ now db fU fH).1 =
                  .response ⟨false, 0,
                    [⟨none, "All aircraft states failed transformation"⟩],
                    fid⟩ := by
                simp [ingestData, he, hv, hst, hT]
              rw [heq] at h
              injection h with h'
              rw [← h']
              simp
            · have heq : (ingestData cfg fid ⟨ts, .val states⟩ now db fU fH).1 =
                  .response ⟨(batchUpsertAircraftStates db
                      (states.filterMap fun st =>
                        (transformToOpenSkyFormat st now).map
                          fun o => (o, fid))
                      feederSourcePriority fU fH now).1.errors == 0,
                    (batchUpsertAircraftStates db
                      (states.filterMap fun st =>
                        (transformToOpenSkyFormat st now).map
                          fun o => (o, fid))
                      feederSourcePriority fU fH now).1.success,
                    (batchUpsertAircraftStates db
                      (states.filterMap fun st =>
                        (transformToOpenSkyFormat st now).map
                          fun o => (o, fid))
                      feederSourcePriority fU fH now).1.errorDetails,
                    fid⟩ := by
                simp [ingestData, he, hv, hst, hT, batchUpsertAircraftStates]
              rw [heq] at h
              injection h with h'
              rw [← h']
              obtain ⟨e1, e2, e3⟩ := batchUpsertGo_counts
                (states.filterMap fun st =>
                  (transformToOpenSkyFormat st now).map fun o => (o, fid))
                db feederSourcePriority now fU fH 0
              simp only [batchUpsertAircraftStates] at *
              simp [e1, e2, List.length_eq_zero]
        · have hv' : (validateAircraftStateBatch states).valid = false := by
            simpa using hv
          have heq : (ingestData cfg fid ⟨ts, .val states⟩ now db fU fH).1 =
              .httpError 400 "Invalid aircraft state data"
                (validateAircraftStateBatch states).errors := by
            simp [ingestData, he, hv']
          rw [heq] at h
          simp at h

/-- Witness for C4: both conjuncts at concrete inputs — a failing first
record with a succeeding second, and the concrete successful response. -/
theorem per_record_failure_isolation_witness :
    ((batchUpsertAircraftStates emptyDb [(minOpen, "f"), (minOpenB, "g")] 30
        (fun i => i == 0) (fun _ => false) 100).1.errorDetails =
      failedDetails (fun i => i == 0) (fun _ => false)
        [(minOpen, "f"), (minOpenB, "g")] 0) ∧
    ((batchUpsertAircraftStates emptyDb [(minOpen, "f"), (minOpenB, "g")] 30
        (fun i => i == 0) (fun _ => false) 100).1.errors =
      (failedDetails (fun i => i == 0) (fun _ => false)
        [(minOpen, "f"), (minOpenB, "g")] 0).length) ∧
    ((batchUpsertAircraftStates emptyDb [(minOpen, "f"), (minOpenB, "g")] 30
        (fun i => i == 0) (fun _ => false) 100).1.success +
      (batchUpsertAircraftStates emptyDb [(minOpen, "f"), (minOpenB, "g")] 30
        (fun i => i == 0) (fun _ => false) 100).1.errors =
        ([(minOpen, "f"), (minOpenB, "g")] :
          List (OpenSkyState × String)).length) ∧
    ((true = true) ↔ (([] : List ErrDetail) = [])) :=
  ⟨(per_record_failure_isolation.1 emptyDb [(minOpen, "f"), (minOpenB, "g")]
      30 100 (fun i => i == 0) (fun _ => false)).1,
   (per_record_failure_isolation.1 emptyDb [(minOpen, "f"), (minOpenB, "g")]
      30 100 (fun i => i == 0) (fun _ => false)).2.1,
   (per_record_failure_isolation.1 emptyDb [(minOpen, "f"), (minOpenB, "g")]
      30 100 (fun i => i == 0) (fun _ => false)).2.2,
   per_record_failure_isolation.2 defaultConfig "f"
      ⟨.val 999, .val [minState]⟩ 1000 emptyDb (fun _ => false)
      (fun _ => false) ⟨true, 1, [], "f"⟩ (by decide)⟩

/-- C6 counterexample: an out-of-range `position_source` (5) is not mapped to
null — the normalizer substitutes the numeric default 0. -/
theorem soft_clamp_position_source_counterexample :
    ((transformToOpenSkyFormat { minState with position_source := .val 5 }
        100).map fun o => o.position_source) = some (some 0) ∧
    ((transformToOpenSkyFormat { minState with position_source := .val 5 }
        100).map fun o => o.position_source) ≠ some none := by
  constructor <;> decide

/-- C6 as amended: the normalizer soft-clamps without rejecting, but
asymmetrically — an out-of-range category value becomes null (an explicit
unset, with a warning logged), while an out-of-range position-source value
becomes the numeric default 0, not null (an explicit null input passes
through as null). -/
theorem soft_clamp_category_ps :
    ∀ (st : AircraftState) (now : Int) (raw : String),
      st.icao24 = .val raw → raw ≠ "" → jsTrim (jsToLower raw) ≠ "" →
    ∃ o, transformToOpenSkyFormat st now = some o ∧
      (∀ x : ℚ, st.category = .val x → (x < 0 ∨ x > 19) → o.category = none) ∧
      (∀ x : ℚ, st.position_source = .val x → (x < 0 ∨ x > 3) →
        o.position_source = some 0) ∧
      (st.position_source = .null → o.position_source = none) := by
  intro st now raw hicao hraw htrim
  simp only [transformToOpenSkyFormat, hicao]
  rw [if_neg hraw]
  unfold transformBody
  rw [if_neg htrim]
  refine ⟨_, rfl, ?_, ?_, ?_⟩
  · intro x hx hr
    simp [hx, hr]
  · intro x hx hr
    simp [hx, hr]
  · intro hx
    simp [hx]

/-- Witness for C6's amended theorem at a concrete observation carrying
`category = 25` and `position_source = 5`. -/
theorem soft_clamp_category_ps_witness :
    ∃ o, transformToOpenSkyFormat clampTestState 100 = some o ∧
      (∀ x : ℚ, clampTestState.category = .val x →
        (x < 0 ∨ x > 19) → o.category = none) ∧
      (∀ x : ℚ, clampTestState.position_source = .val x →
        (x < 0 ∨ x > 3) → o.position_source = some 0) ∧
      (clampTestState.position_source = .null →
        o.position_source = none) :=
  soft_clamp_category_ps clampTestState 100 "abc123" rfl (by decide)
    (by decide)

/-- C7: geometric-altitude fallback.  For every observation the normalizer
accepts, the geometric-altitude slot (index 13) always carries the input
geometric altitude; when barometric altitude is present it fills slot 7
unchanged; and when barometric altitude is absent (undefined or null) while
geometric altitude is present, the geometric value is placed into slot 7 with
slot 13 keeping the original value. -/
theorem geo_altitude_fallback :
    ∀ (st : AircraftState) (now : Int) (raw : String),
      st.icao24 = .val raw → raw ≠ "" → jsTrim (jsToLower raw) ≠ "" →
    ∃ o, transformToOpenSkyFormat st now = some o ∧
      o.geo_altitude = st.geo_altitude.toOption ∧
      (∀ b : ℚ, st.baro_altitude = .val b → o.baro_altitude = some b) ∧
      (st.baro_altitude.isNullOrUndef = true →
        ∀ g : ℚ, st.geo_altitude = .val g →
          o.baro_altitude = some g ∧ o.geo_altitude = some g) := by
  intro st now raw hicao hraw htrim
  simp only [transformToOpenSkyFormat, hicao]
  rw [if_neg hraw]
  unfold transformBody
  rw [if_neg htrim]
  refine ⟨_, rfl, rfl, ?_, ?_⟩
  · intro b hb
    simp [hb, JsVal.toOption]
  · intro habs g hg
    cases hbv : st.baro_altitude with
    | val b => rw [hbv] at habs; simp [JsVal.isNullOrUndef] at habs
    | undef => simp [hbv, hg, JsVal.toOption]
    | null => simp [hbv, hg, JsVal.toOption]

/-- Witness for C7 at a concrete observation with a null barometric altitude
and a 3048 m geometric altitude. -/
theorem geo_altitude_fallback_witness :
    ∃ o, transformToOpenSkyFormat altTestState 100 = some o ∧
      o.geo_altitude = altTestState.geo_altitude.toOption ∧
      (∀ b : ℚ, altTestState.baro_altitude = .val b →
        o.baro_altitude = some b) ∧
      (altTestState.baro_altitude.isNullOrUndef = true →
        ∀ g : ℚ, altTestState.geo_altitude = .val g →
          o.baro_altitude = some g ∧ o.geo_altitude = some g) :=
  geo_altitude_fallback altTestState 100 "abc123" rfl (by decide) (by decide)

/-- A stale batch (age above the configured maximum) that passed shape and
validation is rejected wholesale with the staleness error, before any
per-record processing: the database is returned untouched. -/
theorem ingest_stale_eq (cfg : Config) (fid : String) (ts : JsVal Int)
    (states : List AircraftState) (now : Int) (db : Db) (fU fH : Nat → Bool)
    (hne : states.isEmpty = false)
    (hv : (validateAircraftStateBatch states).valid = true)
    (hst : now - ts.intOrDefault now > cfg.maxDataAgeSeconds) :
    ingestData cfg fid ⟨ts, .val states⟩ now db fU fH =
      (.httpError 400 "Data is too old"
        [⟨0, "timestamp", "Data age exceeds maximum allowed"⟩], db) := by
  simp [ingestData, hne, hv, hst]

/-- A batch that passed shape and validation and is not stale always reaches
a response (never the staleness error). -/
theorem ingest_fresh_no_stale (cfg : Config) (fid : String) (ts : JsVal Int)
    (states : List AircraftState) (now : Int) (db : Db) (fU fH : Nat → Bool)
    (hne : states.isEmpty = false)
    (hv : (validateAircraftStateBatch states).valid = true)
    (hst : ¬(now - ts.intOrDefault now > cfg.maxDataAgeSeconds)) :
    ∃ r, (ingestData cfg fid ⟨ts, .val states⟩ now db fU fH).1 =
      .response r := by
  by_cases hT : (states.filterMap fun st =>
      (transformToOpenSkyFormat st now).map fun o => (o, fid)).isEmpty = true
  · exact ⟨_, by simp [ingestData, hne, hv, hst, hT]; rfl⟩
  · exact ⟨_, by simp [ingestData, hne, hv, hst, hT]; rfl⟩

/-- C8 as amended: staleness boundary with JS-falsy timestamps.  For a batch
that passes shape and field validation: when the declared timestamp `ts` is
truthy (nonzero), the staleness rejection fires exactly when `now - ts`
exceeds the configured maximum age, so a batch timestamped at exactly
`now - maxAge` is accepted and one at `now - maxAge - 1` is rejected, and the
rejection is wholesale, preceding all per-record storage processing (the
store is untouched).  A batch with no declared timestamp defaults to `now`
and is never rejected as stale — and so does a batch declaring timestamp 0,
which `data.timestamp || now` treats as absent (JS falsiness), however stale
the epoch-0 stamp actually is. -/
theorem staleness_boundary :
    ∀ (cfg : Config) (fid : String) (states : List AircraftState)
      (ts now : Int) (db : Db) (fU fH : Nat → Bool),
      states ≠ [] → (validateAircraftStateBatch states).valid = true →
      ts ≠ 0 → 0 ≤ cfg.maxDataAgeSeconds →
      (((ingestData cfg fid ⟨.val ts, .val states⟩ now db fU fH).1.isStaleReject
          = true) ↔ now - ts > cfg.maxDataAgeSeconds) ∧
      (now - ts > cfg.maxDataAgeSeconds →
        ingestData cfg fid ⟨.val ts, .val states⟩ now db fU fH =
          (.httpError 400 "Data is too old"
            [⟨0, "timestamp", "Data age exceeds maximum allowed"⟩], db)) ∧
      ((ingestData cfg fid ⟨.undef, .val states⟩ now db fU fH).1.isStaleReject
          = false) ∧
      ((ingestData cfg fid ⟨.val 0, .val states⟩ now db fU fH).1.isStaleReject
          = false) := by
  intro cfg fid states ts now db fU fH hne hv hts hmax
  have hne' : states.isEmpty = false := by
    cases states with
    | nil => exact absurd rfl hne
    | cons a l => rfl
  have hts' : (JsVal.val ts).intOrDefault now = ts := by
    simp [JsVal.intOrDefault, hts]
  refine ⟨?_, ?_, ?_, ?_⟩
  · by_cases hst : now - ts > cfg.maxDataAgeSeconds
    · constructor
      · intro _; exact hst
      · intro _
        have heq := ingest_stale_eq cfg fid (.val ts) states now db fU fH
          hne' hv (by rw [hts']; exact hst)
        rw [heq]
        rfl
    · obtain ⟨r, hr⟩ := ingest_fresh_no_stale cfg fid (.val ts) states now db
        fU fH hne' hv (by rw [hts']; exact hst)
      constructor
      · intro habs
        rw [hr] at habs
        simp [IngestOutcome.isStaleReject] at habs
      · intro h'
        exact absurd h' hst
  · intro hst
    exact ingest_stale_eq cfg fid (.val ts) states now db fU fH hne' hv
      (by rw [hts']; exact hst)
  · have hfresh : ¬(now - (JsVal.undef : JsVal Int).intOrDefault now >
        cfg.maxDataAgeSeconds) := by
      simp [JsVal.intOrDefault]
      omega
    obtain ⟨r, hr⟩ := ingest_fresh_no_stale cfg fid .undef states now db fU fH
      hne' hv hfresh
    rw [hr]
    rfl
  · have hfresh : ¬(now - (JsVal.val (0 : Int)).intOrDefault now >
        cfg.maxDataAgeSeconds) := by
      simp [JsVal.intOrDefault]
      omega
    obtain ⟨r, hr⟩ := ingest_fresh_no_stale cfg fid (.val 0) states now db fU
      fH hne' hv hfresh
    rw [hr]
    rfl

/-- C8 counterexample: the claim's rule "age = now - declared timestamp,
rejected exactly when age exceeds the maximum" fails at a declared timestamp
of 0 — `data.timestamp || now` treats the falsy 0 as absent, so an epoch-0
batch whose age (1000) far exceeds the default maximum (300) is accepted and
fully processed instead of being rejected as stale. -/
theorem staleness_zero_timestamp :
    ((1000 : Int) - 0 > defaultConfig.maxDataAgeSeconds) ∧
    (ingestData defaultConfig "f" ⟨.val 0, .val [minState]⟩ 1000 emptyDb
        (fun _ => false) (fun _ => false)).1 =
      .response ⟨true, 1, [], "f"⟩ :=
  ⟨by decide, by decide⟩

/-- Witness for C8's amended theorem at the boundary: `now = 1000`, default
maximum age 300 — a batch stamped 700 is not rejected as stale, a batch
stamped 699 is, and unstamped and zero-stamped batches are accepted. -/
theorem staleness_boundary_witness :
    ((((ingestData defaultConfig "f" ⟨.val 700, .val [minState]⟩ 1000 emptyDb
        (fun _ => false) (fun _ => false)).1.isStaleReject = true) ↔
      (1000 - 700 > defaultConfig.maxDataAgeSeconds)) ∧
    ((1000 - 700 > defaultConfig.maxDataAgeSeconds) →
      ingestData defaultConfig "f" ⟨.val 700, .val [minState]⟩ 1000 emptyDb
          (fun _ => false) (fun _ => false) =
        (.httpError 400 "Data is too old"
          [⟨0, "timestamp", "Data age exceeds maximum allowed"⟩], emptyDb)) ∧
    ((ingestData defaultConfig "f" ⟨.undef, .val [minState]⟩ 1000 emptyDb
        (fun _ => false) (fun _ => false)).1.isStaleReject = false) ∧
    ((ingestData defaultConfig "f" ⟨.val 0, .val [minState]⟩ 1000 emptyDb
        (fun _ => false) (fun _ => false)).1.isStaleReject = false)) ∧
    (((ingestData defaultConfig "f" ⟨.val 699, .val [minState]⟩ 1000 emptyDb
        (fun _ => false) (fun _ => false)).1.isStaleReject = true) ↔
      (1000 - 699 > defaultConfig.maxDataAgeSeconds)) :=
  ⟨staleness_boundary defaultConfig "f" [minState] 700 1000 emptyDb
      (fun _ => false) (fun _ => false) (by decide) (by decide) (by decide)
      (by decide),
   (staleness_boundary defaultConfig "f" [minState] 699 1000 emptyDb
      (fun _ => false) (fun _ => false) (by decide) (by decide) (by decide)
      (by decide)).1⟩

/-- Any violation emitted by a numeric range check carries that check's field
name. -/
theorem rangeErrs_field {e : ValidationError} {v : JsVal ℚ} {r : RuleRange}
    {idx : Nat} {f m : String} (h : e ∈ rangeErrs v r idx f m) :
    e.field = f := by
  cases v with
  | undef => simp [rangeErrs] at h
  | null => simp [rangeErrs] at h
  | val x =>
    simp only [rangeErrs] at h
    split at h
    · rw [List.mem_singleton] at h
      subst h
      rfl
    · simp at h

/-- Any violation emitted by a regex check carries that check's field name. -/
theorem regexErrs_field {e : ValidationError} {v : JsVal String}
    {rule : String → Bool} {idx : Nat} {f m : String}
    (h : e ∈ regexErrs v rule idx f m) : e.field = f := by
  cases v with
  | undef => simp [regexErrs] at h
  | null => simp [regexErrs] at h
  | val s =>
    simp only [regexErrs] at h
    split at h
    · simp at h
    · rw [List.mem_singleton] at h
      subst h
      rfl

/-- Any violation emitted by a timestamp check carries that check's field
name. -/
theorem timestampErrs_field {e : ValidationError} {v : JsVal Int}
    {idx : Nat} {f m : String} (h : e ∈ timestampErrs v idx f m) :
    e.field = f := by
  cases v with
  | undef => simp [timestampErrs] at h
  | null => simp [timestampErrs] at h
  | val x =>
    simp only [timestampErrs] at h
    split at h
    · rw [List.mem_singleton] at h
      subst h
      rfl
    · simp at h

/-- Any violation emitted by the icao24 check carries the field name
`icao24`. -/
theorem icao24Errs_field {e : ValidationError} {v : JsVal String} {idx : Nat}
    (h : e ∈ icao24Errs v idx) : e.field = "icao24" := by
  cases v with
  | undef =>
    simp [icao24Errs, JsVal.strTruthy] at h
    subst h
    rfl
  | null =>
    simp [icao24Errs, JsVal.strTruthy] at h
    subst h
    rfl
  | val s =>
    by_cases hs : s = ""
    · subst hs
      simp [icao24Errs, JsVal.strTruthy] at h
      subst h
      rfl
    · by_cases hr : icao24Rule s = true
      · simp [icao24Errs, JsVal.strTruthy, hs, hr] at h
      · simp [icao24Errs, JsVal.strTruthy, hs, hr] at h
        subst h
        rfl

/-- C9 counterexample: a heading of exactly 360 passes validation — the
check is inclusive (`> 360`), not the half-open interval of the claim. -/
theorem heading_360_accepted :
    validateAircraftState { minState with true_track := .val 360 } 0 =
      ⟨true, []⟩ := by
  decide

/-- C9 as amended: for an observation with a numeric heading `h`, the
Validator emits the `true_track` violation exactly when `h` lies outside the
closed interval `[0, 360]` — so 0, 359.9 and also exactly 360 are accepted,
and only `h < 0` or `h > 360` is rejected. -/
theorem heading_range_closed :
    ∀ (st : AircraftState) (idx : Nat) (h : ℚ), st.true_track = .val h →
      (((⟨idx, "true_track", "True track must be between 0 and 360 degrees"⟩ :
          ValidationError) ∈ (validateAircraftState st idx).errors) ↔
        (h < 0 ∨ h > 360)) := by
  intro st idx h hh
  constructor
  · intro hmem
    simp only [validateAircraftState] at hmem
    rcases List.mem_append.1 hmem with hmem | hseg
    case inr =>
      have hf := timestampErrs_field hseg
      simp at hf
    rcases List.mem_append.1 hmem with hmem | hseg
    case inr =>
      have hf := timestampErrs_field hseg
      simp at hf
    rcases List.mem_append.1 hmem with hmem | hseg
    case inr =>
      have hf := regexErrs_field hseg
      simp at hf
    rcases List.mem_append.1 hmem with hmem | hseg
    case inr =>
      have hf := regexErrs_field hseg
      simp at hf
    rcases List.mem_append.1 hmem with hmem | hseg
    case inr =>
      have hf := rangeErrs_field hseg
      simp at hf
    rcases List.mem_append.1 hmem with hmem | hseg
    case inr =>
      have hf := rangeErrs_field hseg
      simp at hf
    rcases List.mem_append.1 hmem with hmem | hseg
    case inr =>
      have hf := rangeErrs_field hseg
      simp at hf
    rcases List.mem_append.1 hmem with hmem | hseg
    case inr =>
      rw [hh] at hseg
      simp only [rangeErrs] at hseg
      by_cases hc : h < VALIDATION_RULES.true_track.min ∨
          h > VALIDATION_RULES.true_track.max
      · simpa [VALIDATION_RULES] using hc
      · rw [if_neg hc] at hseg
        exact absurd hseg (List.not_mem_nil _)
    rcases List.mem_append.1 hmem with hmem | hseg
    case inr =>
      have hf := rangeErrs_field hseg
      simp at hf
    rcases List.mem_append.1 hmem with hmem | hseg
    case inr =>
      have hf := rangeErrs_field hseg
      simp at hf
    rcases List.mem_append.1 hmem with hmem | hseg
    case inr =>
      have hf := rangeErrs_field hseg
      simp at hf
    rcases List.mem_append.1 hmem with hmem | hseg
    case inr =>
      have hf := rangeErrs_field hseg
      simp at hf
    rcases List.mem_append.1 hmem with hseg | hseg
    · have hf := icao24Errs_field hseg
      simp at hf
    · have hf := rangeErrs_field hseg
      simp at hf
  · intro hc
    simp [validateAircraftState, rangeErrs, VALIDATION_RULES, hh, hc]

/-- Witness for C9's amended theorem at heading exactly 360. -/
theorem heading_range_closed_witness :
    ((⟨0, "true_track", "True track must be between 0 and 360 degrees"⟩ :
        ValidationError) ∈ (validateAircraftState
          { minState with true_track := .val 360 } 0).errors) ↔
      ((360 : ℚ) < 0 ∨ (360 : ℚ) > 360) :=
  heading_range_closed { minState with true_track := .val 360 } 0 360 rfl

/-- An absent (undefined or null) field produces no range violation. -/
theorem rangeErrs_absent {v : JsVal ℚ} (h : v.isNullOrUndef = true)
    (r : RuleRange) (idx : Nat) (f m : String) :
    rangeErrs v r idx f m = [] := by
  cases v with
  | undef => rfl
  | null => rfl
  | val x => simp [JsVal.isNullOrUndef] at h

/-- An absent (undefined or null) field produces no regex violation. -/
theorem regexErrs_absent {v : JsVal String} (h : v.isNullOrUndef = true)
    (rule : String → Bool) (idx : Nat) (f m : String) :
    regexErrs v rule idx f m = [] := by
  cases v with
  | undef => rfl
  | null => rfl
  | val x => simp [JsVal.isNullOrUndef] at h

/-- An absent (undefined or null) field produces no timestamp violation. -/
theorem timestampErrs_absent {v : JsVal Int} (h : v.isNullOrUndef = true)
    (idx : Nat) (f m : String) : timestampErrs v idx f m = [] := by
  cases v with
  | undef => rfl
  | null => rfl
  | val x => simp [JsVal.isNullOrUndef] at h

/-- A six-hex-character transponder address produces no icao24 violation. -/
theorem icao24Errs_hex {s : String} (idx : Nat) (h : icao24Rule s = true) :
    icao24Errs (.val s) idx = [] := by
  have hne : s ≠ "" := by
    intro he
    rw [he] at h
    exact absurd h (by decide)
  simp [icao24Errs, JsVal.strTruthy, hne, h]

/-- C10: minimal valid observation.  An observation whose `icao24` is a
value matching the six-hex-character rule and whose every other validated
field (position, both altitudes, velocity, heading, vertical rate, category,
position source, squawk, callsign, time_position, last_contact) is null or
undefined passes single-observation validation with an empty violation list:
`icao24` is the only required field, and each range rule fires only when its
field is present. -/
theorem minimal_observation_valid :
    ∀ (st : AircraftState) (idx : Nat) (s : String),
      st.icao24 = .val s → icao24Rule s = true →
      st.latitude.isNullOrUndef = true →
      st.longitude.isNullOrUndef = true →
      st.baro_altitude.isNullOrUndef = true →
      st.geo_altitude.isNullOrUndef = true →
      st.velocity.isNullOrUndef = true →
      st.true_track.isNullOrUndef = true →
      st.vertical_rate.isNullOrUndef = true →
      st.category.isNullOrUndef = true →
      st.position_source.isNullOrUndef = true →
      st.squawk.isNullOrUndef = true →
      st.callsign.isNullOrUndef = true →
      st.time_position.isNullOrUndef = true →
      st.last_contact.isNullOrUndef = true →
      validateAircraftState st idx = ⟨true, []⟩ := by
  intro st idx s hicao hrule hlat hlon hbaro hgeo hvel htrk hvr hcat hps hsq
    hcs htp hlc
  simp [validateAircraftState, hicao, icao24Errs_hex idx hrule,
    rangeErrs_absent hlat, rangeErrs_absent hlon, rangeErrs_absent hbaro,
    rangeErrs_absent hgeo, rangeErrs_absent hvel, rangeErrs_absent htrk,
    rangeErrs_absent hvr, rangeErrs_absent hcat, rangeErrs_absent hps,
    regexErrs_absent hsq, regexErrs_absent hcs, timestampErrs_absent htp,
    timestampErrs_absent hlc]

/-- Witness for C10 at the concrete minimal observation
`icao24 = "abc123"`, all else undefined. -/
theorem minimal_observation_valid_witness :
    validateAircraftState minState 0 = ⟨true, []⟩ :=
  minimal_observation_valid minState 0 "abc123" rfl (by decide) rfl rfl rfl
    rfl rfl rfl rfl rfl rfl rfl rfl rfl rfl
